import Mathlib

/-!
Verification of the Audi vehicle composition and state-migration model
(`src/carconnectivity_connectors/audi/vehicle.py`).

The source module defines four vehicle classes — `AudiVehicle`,
`AudiElectricVehicle`, `AudiCombustionVehicle`, `AudiHybridVehicle` — each
constructible either fresh (from a `vin`) or by migration (from an `origin`
instance).  The base library (`carconnectivity`: `GenericVehicle`,
`ElectricVehicle`, `CombustionVehicle`, `HybridVehicle`, `BooleanAttribute`)
and the sibling facet modules (`Capabilities`, `AudiCharging`,
`AudiClimatization`) are not part of the source under verification; they are
modelled from the specification's consumed contracts (sections 4.1-4.3) and
marked as such.

Object identity is modelled by natural-number ids: each construction receives
a fresh `selfId`, and every facet records its owner by id, so the Python
statement `facet.parent = self` becomes `parent := selfId`.  Python
`AttributeError` on a structurally deficient origin and the configuration
error of a missing VIN are modelled with `Except`.
-/

/-- Errors a construction can raise.  `missingVin` models the configuration
error of the fresh path when no (non-empty) VIN is supplied; `attributeError`
models a Python `AttributeError` when an origin lacks a facet attribute that
the code reads unconditionally. -/
inductive VErr where
  | missingVin
  | attributeError
  deriving DecidableEq, Repr

/-- Powertrain classification of a constructed instance; `origin` arguments
are checked against it where the source checks `isinstance(origin,
ElectricVehicle)`. -/
inductive VKind where
  | generic
  | electric
  | combustion
  | hybrid
  deriving DecidableEq, Repr

/-- Whether a vehicle of this kind is an `ElectricVehicle` instance in the
source's class hierarchy. -/
def VKind.electricCapable : VKind → Bool
  | .electric => true
  | .hybrid => true
  | _ => false

/-- Modelled from the spec: the charging capability facet (section 4.2 and
the `AudiCharging` module, which is outside the verified source).  A bundle
of reactive state: an owner back-reference, a charging state with a default,
and a subscriber count.  `isAudi` records whether the instance was produced
by the `AudiCharging` constructor (the brand subclass) rather than the base
`Charging` class. -/
structure Charging where
  parent : Nat
  state : Nat
  subscribers : Nat
  isAudi : Bool
  deriving DecidableEq, Repr

/-- Modelled from the spec: fresh base-class charging facet — default state,
zero subscribers, owned by `ownerId` (section 4.2, `origin` absent). -/
def Charging.freshBase (ownerId : Nat) : Charging :=
  { parent := ownerId, state := 0, subscribers := 0, isAudi := false }

/-- Modelled from the spec: the `AudiCharging` constructor
`AudiCharging(vehicle=..., origin=...)`.  With an origin, it adopts the
origin facet's reactive state (value and subscriptions preserved, per the
section 4.1 contract) re-parented to the new owner; without one it
initializes to defaults.  Either way the result is an `AudiCharging`
instance. -/
def AudiCharging.build (ownerId : Nat) (origin : Option Charging) : Charging :=
  match origin with
  | some c => { parent := ownerId, state := c.state, subscribers := c.subscribers, isAudi := true }
  | none => { parent := ownerId, state := 0, subscribers := 0, isAudi := true }

/-- Modelled from the spec: the climatization capability facet (section 4.2
and the `AudiClimatization` module, outside the verified source).  Carries a
target-temperature reactive attribute and its subscriber count; `isAudi`
records construction through the brand subclass. -/
structure Climatization where
  parent : Nat
  targetTemp : Option Int
  subscribers : Nat
  isAudi : Bool
  deriving DecidableEq, Repr

/-- Modelled from the spec: fresh base-class climatization — no target
temperature yet, zero subscribers. -/
def Climatization.freshBase (ownerId : Nat) : Climatization :=
  { parent := ownerId, targetTemp := none, subscribers := 0, isAudi := false }

/-- Modelled from the spec: the `AudiClimatization` constructor
`AudiClimatization(vehicle=..., origin=...)`: adopts the origin's reactive
state re-parented to the new owner, or defaults when no origin. -/
def AudiClimatization.build (ownerId : Nat) (origin : Option Climatization) : Climatization :=
  match origin with
  | some c => { parent := ownerId, targetTemp := c.targetTemp,
                subscribers := c.subscribers, isAudi := true }
  | none => { parent := ownerId, targetTemp := none, subscribers := 0, isAudi := true }

/-- Modelled from the spec: writing the target temperature through the
reactive attribute (section 4.1 `write(value)`), used to set up scenario
origins. -/
def Climatization.write (c : Climatization) (t : Int) : Climatization :=
  { c with targetTemp := some t }

/-- Modelled from the spec: the capability-set facet (`Capabilities` module,
outside the verified source): a facet with an owner back-reference. -/
structure Capabilities where
  parent : Nat
  deriving DecidableEq, Repr

/-- Modelled from the spec: fresh capability set `Capabilities(vehicle=self)`. -/
def Capabilities.fresh (ownerId : Nat) : Capabilities :=
  { parent := ownerId }

/-- Modelled from the spec: the reactive `BooleanAttribute` primitive
(section 4.1, external): a named observable boolean cell with a reassignable
parent and a tag set. -/
structure BooleanAttribute where
  parent : Nat
  name : String
  value : Option Bool
  tags : List String
  deriving DecidableEq, Repr

/-- Modelled from the spec: `BooleanAttribute(name=..., parent=..., tags=...)`
fresh construction — no value yet. -/
def BooleanAttribute.fresh (name : String) (ownerId : Nat) (tags : List String) :
    BooleanAttribute :=
  { parent := ownerId, name := name, value := none, tags := tags }

/-- The in-memory vehicle object.  `id` is the object identity of the
instance; `kind` is its powertrain classification (the class it was
constructed through); `capabilities`, `isActive` and `charging` are `Option`
because a plain `GenericVehicle` does not carry them — the Audi constructors
attach them.  `carImages` is present exactly when the image-support probe
succeeded. -/
structure Vehicle where
  id : Nat
  kind : VKind
  vin : Option String
  manufacturer : Option String
  garage : Option Nat
  managingConnector : Option Nat
  climatization : Climatization
  capabilities : Option Capabilities
  isActive : Option BooleanAttribute
  charging : Option Charging
  carImages : Option (List (String × Nat))
  deriving DecidableEq, Repr

/-- Modelled from the spec: `GenericVehicle.__init__` of the external
`carconnectivity` base library (section 4.3 Vehicle Core construction).
Fresh path: requires a non-empty `vin`, binds garage and managing source,
creates the core climatization facet fresh.  Migration path: ignores the
`vin`/`garage`/`managing_connector` arguments — identity (VIN), linkage and
the manufacturer tag are inherited from the origin, and the core
climatization facet is re-parented to the new instance. -/
def GenericVehicle.build (vin : Option String) (garage : Option Nat)
    (managingConnector : Option Nat) (origin : Option Vehicle) (selfId : Nat) :
    Except VErr Vehicle :=
  match origin with
  | some o =>
      .ok { id := selfId, kind := .generic,
            vin := o.vin, manufacturer := o.manufacturer,
            garage := o.garage, managingConnector := o.managingConnector,
            climatization := { o.climatization with parent := selfId },
            capabilities := none, isActive := none, charging := none,
            carImages := none }
  | none =>
      match vin with
      | none => .error .missingVin
      | some v =>
          if v = "" then .error .missingVin
          else
            .ok { id := selfId, kind := .generic,
                  vin := some v, manufacturer := none,
                  garage := garage, managingConnector := managingConnector,
                  climatization := Climatization.freshBase selfId,
                  capabilities := none, isActive := none, charging := none,
                  carImages := none }

/-- `AudiVehicle.__init__` (vehicle.py lines 41-63), composed with the
spec-modelled `GenericVehicle` core it invokes via `super().__init__`.
`SUPPORT_IMAGES` (module constant probed once at load, lines 14-20) is the
`supportImages` parameter.  Migration branch (line 48): calls the core with
`garage` and `origin` only, adopts and re-parents `origin.capabilities` and
`origin.is_active`, and copies `origin._car_images` when images are
supported.  Fresh branch (line 56): calls the core with `vin`, `garage`,
`managing_connector`, builds a fresh capability set, rewraps the core's
climatization through `AudiClimatization`, creates the `is_active`
attribute, and an empty image cache when supported.  Both branches end by
stamping `manufacturer` to `"Audi"` (line 63). -/
def AudiVehicle.build (supportImages : Bool) (vin : Option String)
    (garage : Option Nat) (managingConnector : Option Nat)
    (origin : Option Vehicle) (selfId : Nat) : Except VErr Vehicle :=
  match origin with
  | some o =>
      match GenericVehicle.build none garage none (some o) selfId with
      | .error e => .error e
      | .ok core =>
          match o.capabilities with
          | none => .error .attributeError
          | some caps =>
              match o.isActive with
              | none => .error .attributeError
              | some act =>
                  if supportImages then
                    match o.carImages with
                    | none => .error .attributeError
                    | some m =>
                        .ok { core with
                              capabilities := some { caps with parent := selfId },
                              isActive := some { act with parent := selfId },
                              carImages := some m,
                              manufacturer := some "Audi" }
                  else
                    .ok { core with
                          capabilities := some { caps with parent := selfId },
                          isActive := some { act with parent := selfId },
                          carImages := none,
                          manufacturer := some "Audi" }
  | none =>
      match GenericVehicle.build vin garage managingConnector none selfId with
      | .error e => .error e
      | .ok core =>
          .ok { core with
                capabilities := some (Capabilities.fresh selfId),
                climatization := AudiClimatization.build selfId (some core.climatization),
                isActive := some (BooleanAttribute.fresh "is_active" selfId ["connector_custom"]),
                carImages := if supportImages then some [] else none,
                manufacturer := some "Audi" }

/-- `AudiVehicle.__init__` invoked as a top-level constructor: the
constructed instance is a plain `AudiVehicle` (kind `generic`). -/
def AudiVehicle.init (supportImages : Bool) (vin : Option String)
    (garage : Option Nat) (managingConnector : Option Nat)
    (origin : Option Vehicle) (selfId : Nat) : Except VErr Vehicle :=
  (AudiVehicle.build supportImages vin garage managingConnector origin selfId).map
    (fun v => { v with kind := .generic })

/-- Modelled from the spec: `ElectricVehicle.__init__` of the external base
library, as situated in the Audi method-resolution orders (its cooperative
`super()` call reaches `AudiVehicle.build`).  After the core runs it
attaches the charging facet: migrated from `origin.charging` when the origin
is itself electric-capable, otherwise constructed fresh with defaults
(capability mismatch is not an error, section 4.4/7). -/
def ElectricVehicle.build (supportImages : Bool) (vin : Option String)
    (garage : Option Nat) (managingConnector : Option Nat)
    (origin : Option Vehicle) (selfId : Nat) : Except VErr Vehicle :=
  match AudiVehicle.build supportImages vin garage managingConnector origin selfId with
  | .error e => .error e
  | .ok v =>
      match origin with
      | some o =>
          if o.kind.electricCapable then
            match o.charging with
            | some c =>
                .ok { v with charging := some (Charging.mk selfId c.state c.subscribers c.isAudi) }
            | none => .error .attributeError
          else
            .ok { v with charging := some (Charging.freshBase selfId) }
      | none => .ok { v with charging := some (Charging.freshBase selfId) }

/-- `AudiElectricVehicle.__init__` (vehicle.py lines 75-93) minus the final
class tagging: migration branch calls `super().__init__(garage=garage,
origin=origin)` (dropping `vin` and `managing_connector`), then rewraps the
charging facet through `AudiCharging` — from `origin.charging` when
`isinstance(origin, ElectricVehicle)` (line 86), else from the
freshly-built `self.charging` (line 89).  Fresh branch passes all three
arguments through and rewraps the fresh `self.charging` (line 93). -/
def AudiElectricVehicle.build (supportImages : Bool) (vin : Option String)
    (garage : Option Nat) (managingConnector : Option Nat)
    (origin : Option Vehicle) (selfId : Nat) : Except VErr Vehicle :=
  match origin with
  | some o =>
      match ElectricVehicle.build supportImages none garage none (some o) selfId with
      | .error e => .error e
      | .ok v =>
          if o.kind.electricCapable then
            match o.charging with
            | some c => .ok { v with charging := some (AudiCharging.build selfId (some c)) }
            | none => .error .attributeError
          else
            .ok { v with charging := some (AudiCharging.build selfId v.charging) }
  | none =>
      match ElectricVehicle.build supportImages vin garage managingConnector none selfId with
      | .error e => .error e
      | .ok v => .ok { v with charging := some (AudiCharging.build selfId v.charging) }

/-- `AudiElectricVehicle.__init__` as a top-level constructor: the result is
an `ElectricVehicle` instance (kind `electric`). -/
def AudiElectricVehicle.init (supportImages : Bool) (vin : Option String)
    (garage : Option Nat) (managingConnector : Option Nat)
    (origin : Option Vehicle) (selfId : Nat) : Except VErr Vehicle :=
  (AudiElectricVehicle.build supportImages vin garage managingConnector origin selfId).map
    (fun v => { v with kind := .electric })

/-- `AudiCombustionVehicle.__init__` (vehicle.py lines 105-118): both
branches only forward to the superclass chain — the migration branch with
`garage` and `origin`, the fresh branch with `vin`, `garage`,
`managing_connector`.  The external `CombustionVehicle` base adds no
powertrain-specific facet (spec section 4.4), so the chain is the
`AudiVehicle` core alone.  The result is a `CombustionVehicle` instance
(kind `combustion`). -/
def AudiCombustionVehicle.init (supportImages : Bool) (vin : Option String)
    (garage : Option Nat) (managingConnector : Option Nat)
    (origin : Option Vehicle) (selfId : Nat) : Except VErr Vehicle :=
  (match origin with
   | some o => AudiVehicle.build supportImages none garage none (some o) selfId
   | none => AudiVehicle.build supportImages vin garage managingConnector none selfId).map
    (fun v : Vehicle => { v with kind := .combustion })

/-- `AudiHybridVehicle.__init__` (vehicle.py lines 130-143): both branches
only forward to the superclass chain.  Per the method-resolution order
`AudiHybridVehicle, HybridVehicle, AudiElectricVehicle, ElectricVehicle,
AudiCombustionVehicle, CombustionVehicle, AudiVehicle, GenericVehicle`, the
effective body execution is the `AudiElectricVehicle` chain (the
`CombustionVehicle` stages and the external `HybridVehicle` stage add no
facet, spec section 4.4).  The result is a `HybridVehicle` instance (kind
`hybrid`). -/
def AudiHybridVehicle.init (supportImages : Bool) (vin : Option String)
    (garage : Option Nat) (managingConnector : Option Nat)
    (origin : Option Vehicle) (selfId : Nat) : Except VErr Vehicle :=
  (match origin with
   | some o => AudiElectricVehicle.build supportImages none garage none (some o) selfId
   | none => AudiElectricVehicle.build supportImages vin garage managingConnector none selfId).map
    (fun v : Vehicle => { v with kind := .hybrid })

/-- An origin is structurally an Audi vehicle (carries the Audi-level facet
attributes the migration branch reads unconditionally), with an image cache
whenever images are supported and a charging facet whenever it is
electric-capable. -/
def Audiish (supportImages : Bool) (v : Vehicle) : Prop :=
  v.capabilities.isSome = true ∧ v.isActive.isSome = true ∧
  (supportImages = true → v.carImages.isSome = true) ∧
  (v.kind.electricCapable = true → v.charging.isSome = true)

instance (si : Bool) (v : Vehicle) : Decidable (Audiish si v) := by
  unfold Audiish; infer_instance

/-- Erase the image-cache field, keeping every other field. -/
def Vehicle.dropImages (v : Vehicle) : Vehicle :=
  { v with carImages := none }

/-- A structurally inert vehicle used only as the fallback of `okOr`. -/
def Vehicle.dummy : Vehicle :=
  { id := 0, kind := .generic, vin := none, manufacturer := none, garage := none,
    managingConnector := none, climatization := Climatization.freshBase 0,
    capabilities := none, isActive := none, charging := none, carImages := none }

/-- Extract the vehicle from a successful construction, falling back to a
dummy on error; used to state closed witness facts about concrete
constructions. -/
def okOr (d : Vehicle) (e : Except VErr Vehicle) : Vehicle :=
  match e with
  | .ok v => v
  | .error _ => d

/-- A concrete combustion Audi, freshly constructed with VIN `"WAUZZZ1"`,
whose climatization target temperature was then set to 21 through the
reactive attribute: the origin of the spec's combustion-to-hybrid migration
scenario. -/
def demoCombustion : Vehicle :=
  match AudiCombustionVehicle.init false (some "WAUZZZ1") (some 1) (some 2) none 10 with
  | .ok v => { v with climatization := v.climatization.write 21 }
  | .error _ => Vehicle.dummy

/-- A concrete electric Audi, freshly constructed with VIN `"WAUZZZ2"`,
whose charging facet then accumulated state 3 and two subscribers: an
electric-capable migration origin with observable charging state. -/
def demoElectric : Vehicle :=
  match AudiElectricVehicle.init false (some "WAUZZZ2") (some 1) (some 2) none 12 with
  | .ok v =>
      { v with charging := some { parent := v.id, state := 3, subscribers := 2, isAudi := true } }
  | .error _ => Vehicle.dummy

/-- A concrete combustion Audi constructed with image support present (an
empty image cache attached), for exercising the image-supporting migration
path. -/
def demoCombustionImg : Vehicle :=
  match AudiCombustionVehicle.init true (some "WAUZZZ3") (some 1) (some 2) none 14 with
  | .ok v => v
  | .error _ => Vehicle.dummy

/-- A successful `AudiVehicle.build` — fresh or migrated — always yields:
the `"Audi"` brand stamp, the new id, every Audi-core facet present and
re-parented to the new instance, no charging facet, an image cache exactly
when images are supported, and identity/linkage taken from the arguments
(fresh) or inherited from the origin (migration). -/
theorem av_build_ok_fields {si : Bool} {vin : Option String} {g mc : Option Nat}
    {origin : Option Vehicle} {selfId : Nat} {v : Vehicle}
    (h : AudiVehicle.build si vin g mc origin selfId = .ok v) :
    v.manufacturer = some "Audi" ∧ v.id = selfId ∧
    v.climatization.parent = selfId ∧
    v.capabilities.isSome = true ∧ v.isActive.isSome = true ∧
    (∀ c, v.capabilities = some c → c.parent = selfId) ∧
    (∀ a, v.isActive = some a → a.parent = selfId) ∧
    v.charging = none ∧ v.carImages.isSome = si ∧
    (origin = none → v.vin = vin ∧ v.garage = g ∧ v.managingConnector = mc) ∧
    (∀ o, origin = some o →
      v.vin = o.vin ∧ v.garage = o.garage ∧ v.managingConnector = o.managingConnector ∧
      v.climatization.targetTemp = o.climatization.targetTemp ∧
      v.climatization.subscribers = o.climatization.subscribers) := by
  rcases origin with _ | o
  · rcases vin with _ | s
    · simp [AudiVehicle.build, GenericVehicle.build] at h
    · by_cases hs : s = ""
      · simp [AudiVehicle.build, GenericVehicle.build, hs] at h
      · simp [AudiVehicle.build, GenericVehicle.build, hs] at h
        subst h
        cases si <;> simp [AudiClimatization.build, Climatization.freshBase,
          Capabilities.fresh, BooleanAttribute.fresh]
  · rcases hc : o.capabilities with _ | caps
    · simp [AudiVehicle.build, GenericVehicle.build, hc] at h
    · rcases ha : o.isActive with _ | act
      · simp [AudiVehicle.build, GenericVehicle.build, hc, ha] at h
      · cases si
        · simp [AudiVehicle.build, GenericVehicle.build, hc, ha] at h
          subst h
          simp
        · rcases hm : o.carImages with _ | m
          · simp [AudiVehicle.build, GenericVehicle.build, hc, ha, hm] at h
          · simp [AudiVehicle.build, GenericVehicle.build, hc, ha, hm] at h
            subst h
            simp

/-- The migration branch of `AudiVehicle.build` never reads the `vin`,
`garage` or `managing_connector` arguments: with an origin present, any two
argument triples give the same construction. -/
theorem av_build_migrate_args (si : Bool) (vin vin' : Option String)
    (g mc g' mc' : Option Nat) (o : Vehicle) (selfId : Nat) :
    AudiVehicle.build si vin g mc (some o) selfId =
      AudiVehicle.build si vin' g' mc' (some o) selfId := rfl

/-- A successful `ElectricVehicle.build` is a successful `AudiVehicle.build`
with a charging facet attached, owned by the new instance; and the facet is
migrated from the origin's charging (state and subscribers preserved) when
the origin is electric-capable, else fresh with defaults. -/
theorem ev_build_ok_fields {si : Bool} {vin : Option String} {g mc : Option Nat}
    {origin : Option Vehicle} {selfId : Nat} {v : Vehicle}
    (h : ElectricVehicle.build si vin g mc origin selfId = .ok v) :
    ∃ w ch, AudiVehicle.build si vin g mc origin selfId = .ok w ∧
      v = { w with charging := some ch } ∧ ch.parent = selfId ∧
      (∀ o, origin = some o → o.kind.electricCapable = true →
        ∃ c, o.charging = some c ∧ ch.state = c.state ∧ ch.subscribers = c.subscribers) ∧
      (∀ o, origin = some o → o.kind.electricCapable = false →
        ch = Charging.freshBase selfId) ∧
      (origin = none → ch = Charging.freshBase selfId) := by
  unfold ElectricVehicle.build at h
  cases hav : AudiVehicle.build si vin g mc origin selfId with
  | error e => rw [hav] at h; cases h
  | ok w =>
      rw [hav] at h
      rcases origin with _ | o
      · simp at h
        exact ⟨w, Charging.freshBase selfId, rfl, h.symm, rfl, by simp, by simp, fun _ => rfl⟩
      · rcases he : o.kind.electricCapable with _ | _
        · simp [he] at h
          refine ⟨w, Charging.freshBase selfId, rfl, h.symm, rfl, ?_, ?_, by simp⟩
          · intro o' ho'; cases ho'; rw [he]; simp
          · intro o' ho' _; cases ho'; rfl
        · rcases hch : o.charging with _ | c
          · simp [he, hch] at h
          · simp [he, hch] at h
            refine ⟨w, Charging.mk selfId c.state c.subscribers c.isAudi, rfl, h.symm, rfl,
              ?_, ?_, by simp⟩
            · intro o' ho' _; cases ho'; exact ⟨c, hch, rfl, rfl⟩
            · intro o' ho' hne; cases ho'; rw [he] at hne; cases hne

/-- A successful `AudiElectricVehicle.build` is a successful
`AudiVehicle.build` with an `AudiCharging` facet attached, owned by the new
instance: migrated from the origin's charging when the origin is
electric-capable, and freshly defaulted (state 0, zero subscribers) when the
origin is not electric-capable or absent. -/
theorem aev_build_ok_fields {si : Bool} {vin : Option String}
    {g mc : Option Nat} {origin : Option Vehicle} {selfId : Nat} {v : Vehicle}
    (h : AudiElectricVehicle.build si vin g mc origin selfId = .ok v) :
    ∃ w ch, AudiVehicle.build si vin g mc origin selfId = .ok w ∧
      v = { w with charging := some ch } ∧ ch.parent = selfId ∧ ch.isAudi = true ∧
      (∀ o, origin = some o → o.kind.electricCapable = true →
        ∃ c, o.charging = some c ∧ ch.state = c.state ∧ ch.subscribers = c.subscribers) ∧
      (∀ o, origin = some o → o.kind.electricCapable = false →
        ch = { parent := selfId, state := 0, subscribers := 0, isAudi := true }) ∧
      (origin = none → ch = { parent := selfId, state := 0, subscribers := 0, isAudi := true }) := by
  rcases origin with _ | o
  · simp only [AudiElectricVehicle.build] at h
    cases hev : ElectricVehicle.build si vin g mc none selfId with
    | error e => rw [hev] at h; cases h
    | ok u =>
        rw [hev] at h
        simp only [Except.ok.injEq] at h
        obtain ⟨w, ch0, hav, hu, _, _, _, hfresh⟩ := ev_build_ok_fields hev
        refine ⟨w, AudiCharging.build selfId u.charging, hav, ?_, ?_, ?_, by simp, by simp, ?_⟩
        · rw [← h, hu]
        · rw [hu, hfresh rfl]; simp [AudiCharging.build, Charging.freshBase]
        · rw [hu, hfresh rfl]; simp [AudiCharging.build, Charging.freshBase]
        · intro _; rw [hu, hfresh rfl]; simp [AudiCharging.build, Charging.freshBase]
  · simp only [AudiElectricVehicle.build] at h
    cases hev : ElectricVehicle.build si none g none (some o) selfId with
    | error e => rw [hev] at h; cases h
    | ok u =>
        rw [hev] at h
        obtain ⟨w, ch0, hav, hu, _, hel, hnel, _⟩ := ev_build_ok_fields hev
        have hav2 : AudiVehicle.build si vin g mc (some o) selfId = .ok w :=
          (av_build_migrate_args si vin none g mc g none o selfId).trans hav
        rcases he : o.kind.electricCapable with _ | _
        · rw [he] at h; simp only [Bool.false_eq_true, if_false, Except.ok.injEq] at h
          refine ⟨w, AudiCharging.build selfId u.charging, hav2, ?_, ?_, ?_, ?_, ?_, by simp⟩
          · rw [← h, hu]
          · rw [hu, hnel o rfl he]; simp [AudiCharging.build, Charging.freshBase]
          · rw [hu, hnel o rfl he]; simp [AudiCharging.build, Charging.freshBase]
          · intro o2 ho2 hcap; cases ho2; rw [he] at hcap; cases hcap
          · intro o2 ho2 _; cases ho2
            rw [hu, hnel o rfl he]; simp [AudiCharging.build, Charging.freshBase]
        · rw [he] at h
          rcases hch : o.charging with _ | c
          · rw [hch] at h; simp at h
          · rw [hch] at h; simp only [if_true, Except.ok.injEq] at h
            refine ⟨w, AudiCharging.build selfId (some c), hav2, ?_, ?_, ?_, ?_, ?_, by simp⟩
            · rw [← h, hu]
            · simp [AudiCharging.build]
            · simp [AudiCharging.build]
            · intro o2 ho2 _; cases ho2; exact ⟨c, hch, by simp [AudiCharging.build]⟩
            · intro o2 ho2 hcap; cases ho2; rw [he] at hcap; cases hcap

/-- Eliminating `Except.map` on a successful result. -/
theorem exceptMap_ok {f : Vehicle → Vehicle} {e : Except VErr Vehicle} {v : Vehicle}
    (h : e.map f = .ok v) : ∃ w, e = .ok w ∧ v = f w := by
  cases e with
  | error a => cases h
  | ok w => exact ⟨w, rfl, by cases h; rfl⟩

/-- The migration branch of `AudiElectricVehicle.build` never reads the
`vin`, `garage` or `managing_connector` arguments. -/
theorem aev_build_migrate_args (si : Bool) (vin vin' : Option String)
    (g mc g' mc' : Option Nat) (o : Vehicle) (selfId : Nat) :
    AudiElectricVehicle.build si vin g mc (some o) selfId =
      AudiElectricVehicle.build si vin' g' mc' (some o) selfId := rfl

/-- A successful `AudiVehicle.init` is a successful `AudiVehicle.build`
tagged as a plain Audi vehicle. -/
theorem av_init_ok_elim {si : Bool} {vin : Option String} {g mc : Option Nat}
    {origin : Option Vehicle} {selfId : Nat} {v : Vehicle}
    (h : AudiVehicle.init si vin g mc origin selfId = .ok v) :
    ∃ w, AudiVehicle.build si vin g mc origin selfId = .ok w ∧
      v = { w with kind := .generic } := by
  unfold AudiVehicle.init at h
  exact exceptMap_ok h

/-- A successful `AudiElectricVehicle.init` is a successful
`AudiElectricVehicle.build` tagged as an electric vehicle. -/
theorem aev_init_ok_elim {si : Bool} {vin : Option String} {g mc : Option Nat}
    {origin : Option Vehicle} {selfId : Nat} {v : Vehicle}
    (h : AudiElectricVehicle.init si vin g mc origin selfId = .ok v) :
    ∃ w, AudiElectricVehicle.build si vin g mc origin selfId = .ok w ∧
      v = { w with kind := .electric } := by
  unfold AudiElectricVehicle.init at h
  exact exceptMap_ok h

/-- A successful `AudiCombustionVehicle.init` is a successful
`AudiVehicle.build` (the combustion chain adds no facet) tagged as a
combustion vehicle. -/
theorem acv_init_ok_elim {si : Bool} {vin : Option String} {g mc : Option Nat}
    {origin : Option Vehicle} {selfId : Nat} {v : Vehicle}
    (h : AudiCombustionVehicle.init si vin g mc origin selfId = .ok v) :
    ∃ w, AudiVehicle.build si vin g mc origin selfId = .ok w ∧
      v = { w with kind := .combustion } := by
  unfold AudiCombustionVehicle.init at h
  rcases origin with _ | o
  · exact exceptMap_ok h
  · obtain ⟨w, hw, hv⟩ := exceptMap_ok h
    exact ⟨w, (av_build_migrate_args si vin none g mc g none o selfId).trans hw, hv⟩

/-- A successful `AudiHybridVehicle.init` is a successful
`AudiElectricVehicle.build` (the hybrid chain adds no facet beyond the
electric one) tagged as a hybrid vehicle. -/
theorem ahv_init_ok_elim {si : Bool} {vin : Option String} {g mc : Option Nat}
    {origin : Option Vehicle} {selfId : Nat} {v : Vehicle}
    (h : AudiHybridVehicle.init si vin g mc origin selfId = .ok v) :
    ∃ w, AudiElectricVehicle.build si vin g mc origin selfId = .ok w ∧
      v = { w with kind := .hybrid } := by
  unfold AudiHybridVehicle.init at h
  rcases origin with _ | o
  · exact exceptMap_ok h
  · obtain ⟨w, hw, hv⟩ := exceptMap_ok h
    exact ⟨w, (aev_build_migrate_args si vin none g mc g none o selfId).trans hw,
      hv⟩

/-- `Except.map` preserves success. -/
theorem exceptMap_isOk (f : Vehicle → Vehicle) (e : Except VErr Vehicle) :
    (e.map f).isOk = e.isOk := by
  cases e <;> rfl

/-- Migration through `AudiVehicle.build` succeeds on any structurally Audi
origin. -/
theorem av_build_migrate_isOk (si : Bool) (vin : Option String) (g mc : Option Nat)
    (o : Vehicle) (selfId : Nat) (ho : Audiish si o) :
    (AudiVehicle.build si vin g mc (some o) selfId).isOk = true := by
  obtain ⟨hcap, hact, himg, -⟩ := ho
  rcases hc : o.capabilities with _ | caps
  · rw [hc] at hcap; cases hcap
  rcases ha : o.isActive with _ | act
  · rw [ha] at hact; cases hact
  cases si
  · simp [AudiVehicle.build, GenericVehicle.build, hc, ha, Except.isOk, Except.toBool]
  · rcases hm : o.carImages with _ | m
    · have := himg rfl; rw [hm] at this; cases this
    · simp [AudiVehicle.build, GenericVehicle.build, hc, ha, hm, Except.isOk, Except.toBool]

/-- Migration through `ElectricVehicle.build` succeeds on any structurally
Audi origin (capability mismatch included: a non-electric origin is not an
error). -/
theorem ev_build_migrate_isOk (si : Bool) (vin : Option String) (g mc : Option Nat)
    (o : Vehicle) (selfId : Nat) (ho : Audiish si o) :
    (ElectricVehicle.build si vin g mc (some o) selfId).isOk = true := by
  have hav := av_build_migrate_isOk si vin g mc o selfId ho
  unfold ElectricVehicle.build
  cases hb : AudiVehicle.build si vin g mc (some o) selfId with
  | error e => rw [hb] at hav; cases hav
  | ok w =>
      rcases he : o.kind.electricCapable with _ | _
      · simp [he, Except.isOk, Except.toBool]
      · have hch := ho.2.2.2 he
        rcases hc : o.charging with _ | c
        · rw [hc] at hch; cases hch
        · simp [he, hc, Except.isOk, Except.toBool]

/-- Migration through `AudiElectricVehicle.build` succeeds on any
structurally Audi origin. -/
theorem aev_build_migrate_isOk (si : Bool) (vin : Option String)
    (g mc : Option Nat) (o : Vehicle) (selfId : Nat) (ho : Audiish si o) :
    (AudiElectricVehicle.build si vin g mc (some o) selfId).isOk = true := by
  have hev := ev_build_migrate_isOk si none g none o selfId ho
  simp only [AudiElectricVehicle.build]
  cases hb : ElectricVehicle.build si none g none (some o) selfId with
  | error e => rw [hb] at hev; cases hev
  | ok w =>
      rcases he : o.kind.electricCapable with _ | _
      · simp [he, Except.isOk, Except.toBool]
      · have hch := ho.2.2.2 he
        rcases hc : o.charging with _ | c
        · rw [hc] at hch; cases hch
        · simp [he, hc, Except.isOk, Except.toBool]

/-- C1, counterexample to the claim as stated: constructing an Audi vehicle
with both a `vin` and an `origin` supplied does not raise — the construction
completes (the migration branch never reads the `vin`). -/
theorem claim1_counterexample :
    (AudiVehicle.init false (some "WAUZZZ9") (some 7) (some 3) (some demoCombustion) 11).isOk
      = true := by decide

/-- C1 (amended): for every vehicle variant constructor, a call supplying
neither a vin nor an origin raises the configuration error, fails fast; a
call supplying both a vin and an origin does not raise — the vin (and
managing connector) are ignored and migration from the origin completes. -/
theorem claim1_amended_exclusivity (si : Bool) (g mc : Option Nat) (selfId : Nat)
    (vin : Option String) (o : Vehicle) (ho : Audiish si o) :
    AudiVehicle.init si none g mc none selfId = .error .missingVin ∧
    AudiElectricVehicle.init si none g mc none selfId = .error .missingVin ∧
    AudiCombustionVehicle.init si none g mc none selfId = .error .missingVin ∧
    AudiHybridVehicle.init si none g mc none selfId = .error .missingVin ∧
    (AudiVehicle.init si vin g mc (some o) selfId).isOk = true ∧
    (AudiElectricVehicle.init si vin g mc (some o) selfId).isOk = true ∧
    (AudiCombustionVehicle.init si vin g mc (some o) selfId).isOk = true ∧
    (AudiHybridVehicle.init si vin g mc (some o) selfId).isOk = true := by
  refine ⟨rfl, rfl, rfl, rfl, ?_, ?_, ?_, ?_⟩
  · unfold AudiVehicle.init
    rw [exceptMap_isOk]
    exact av_build_migrate_isOk si vin g mc o selfId ho
  · unfold AudiElectricVehicle.init
    rw [exceptMap_isOk]
    exact aev_build_migrate_isOk si vin g mc o selfId ho
  · unfold AudiCombustionVehicle.init
    rw [exceptMap_isOk]
    exact av_build_migrate_isOk si none g none o selfId ho
  · unfold AudiHybridVehicle.init
    rw [exceptMap_isOk]
    exact aev_build_migrate_isOk si none g none o selfId ho

/-- C1 witness: at a concrete input, neither-supplied errors and
both-supplied completes. -/
theorem claim1_exclusivity_witness :
    AudiVehicle.init false none none none none 5 = .error .missingVin ∧
    (AudiHybridVehicle.init false (some "X") none none (some demoCombustion) 5).isOk = true :=
  ⟨(claim1_amended_exclusivity false none none 5 (some "X") demoCombustion (by decide)).1,
   (claim1_amended_exclusivity false none none 5 (some "X") demoCombustion
     (by decide)).2.2.2.2.2.2.2⟩

/-- C2: every construction of any Audi variant, fresh or by migration,
completes with the manufacturer tag equal to the brand constant `"Audi"`,
regardless of the origin's manufacturer value — the stamp is re-asserted on
every construction. -/
theorem claim2_brand_stamp (si : Bool) (vin : Option String) (g mc : Option Nat)
    (origin : Option Vehicle) (selfId : Nat) (v : Vehicle)
    (h : AudiVehicle.init si vin g mc origin selfId = .ok v ∨
         AudiElectricVehicle.init si vin g mc origin selfId = .ok v ∨
         AudiCombustionVehicle.init si vin g mc origin selfId = .ok v ∨
         AudiHybridVehicle.init si vin g mc origin selfId = .ok v) :
    v.manufacturer = some "Audi" := by
  rcases h with h | h | h | h
  · obtain ⟨w, hw, hv⟩ := av_init_ok_elim h
    rw [hv]
    exact (av_build_ok_fields hw).1
  · obtain ⟨w, hw, hv⟩ := aev_init_ok_elim h
    obtain ⟨u, ch, hu, hwu, -⟩ := aev_build_ok_fields hw
    rw [hv, hwu]
    exact (av_build_ok_fields hu).1
  · obtain ⟨w, hw, hv⟩ := acv_init_ok_elim h
    rw [hv]
    exact (av_build_ok_fields hw).1
  · obtain ⟨w, hw, hv⟩ := ahv_init_ok_elim h
    obtain ⟨u, ch, hu, hwu, -⟩ := aev_build_ok_fields hw
    rw [hv, hwu]
    exact (av_build_ok_fields hu).1

/-- C2 witness: a concrete fresh construction carries the brand stamp. -/
theorem claim2_brand_stamp_witness :
    (okOr Vehicle.dummy (AudiVehicle.init false (some "WAUZZZ2") none none none 4)).manufacturer
      = some "Audi" :=
  claim2_brand_stamp false (some "WAUZZZ2") none none none 4 _ (Or.inl rfl)

/-- C4: after any construction (fresh or by migration) completes, the result
carries the fresh object id, and every capability facet present on the
result — capabilities, is_active, climatization, and charging where present
— reports the newly constructed instance as its parent; no facet retains the
origin or an intermediate object as parent. -/
theorem claim4_parent_consistency (si : Bool) (vin : Option String) (g mc : Option Nat)
    (origin : Option Vehicle) (selfId : Nat) (v : Vehicle)
    (h : AudiVehicle.init si vin g mc origin selfId = .ok v ∨
         AudiElectricVehicle.init si vin g mc origin selfId = .ok v ∨
         AudiCombustionVehicle.init si vin g mc origin selfId = .ok v ∨
         AudiHybridVehicle.init si vin g mc origin selfId = .ok v) :
    v.id = selfId ∧
    v.climatization.parent = v.id ∧
    (∀ c, v.capabilities = some c → c.parent = v.id) ∧
    (∀ a, v.isActive = some a → a.parent = v.id) ∧
    (∀ ch, v.charging = some ch → ch.parent = v.id) := by
  rcases h with h | h | h | h
  · obtain ⟨w, hw, hv⟩ := av_init_ok_elim h
    obtain ⟨-, hid, hclim, -, -, hcap, hact, hchg, -, -, -⟩ := av_build_ok_fields hw
    subst hv
    refine ⟨hid, ?_, ?_, ?_, ?_⟩
    · show w.climatization.parent = w.id
      rw [hclim, hid]
    · intro c hc
      show c.parent = w.id
      rw [hcap c hc, hid]
    · intro a ha
      show a.parent = w.id
      rw [hact a ha, hid]
    · intro ch hch
      have h2 : w.charging = some ch := hch
      rw [hchg] at h2
      cases h2
  · obtain ⟨w, hw, hv⟩ := aev_init_ok_elim h
    obtain ⟨u, ch0, hu, hwu, hchp, -, -, -, -⟩ := aev_build_ok_fields hw
    obtain ⟨-, hid, hclim, -, -, hcap, hact, -, -, -, -⟩ := av_build_ok_fields hu
    subst hv
    subst hwu
    refine ⟨hid, ?_, ?_, ?_, ?_⟩
    · show u.climatization.parent = u.id
      rw [hclim, hid]
    · intro c hc
      show c.parent = u.id
      rw [hcap c hc, hid]
    · intro a ha
      show a.parent = u.id
      rw [hact a ha, hid]
    · intro ch hch
      have h2 : some ch0 = some ch := hch
      cases h2
      show ch0.parent = u.id
      rw [hchp, hid]
  · obtain ⟨w, hw, hv⟩ := acv_init_ok_elim h
    obtain ⟨-, hid, hclim, -, -, hcap, hact, hchg, -, -, -⟩ := av_build_ok_fields hw
    subst hv
    refine ⟨hid, ?_, ?_, ?_, ?_⟩
    · show w.climatization.parent = w.id
      rw [hclim, hid]
    · intro c hc
      show c.parent = w.id
      rw [hcap c hc, hid]
    · intro a ha
      show a.parent = w.id
      rw [hact a ha, hid]
    · intro ch hch
      have h2 : w.charging = some ch := hch
      rw [hchg] at h2
      cases h2
  · obtain ⟨w, hw, hv⟩ := ahv_init_ok_elim h
    obtain ⟨u, ch0, hu, hwu, hchp, -, -, -, -⟩ := aev_build_ok_fields hw
    obtain ⟨-, hid, hclim, -, -, hcap, hact, -, -, -, -⟩ := av_build_ok_fields hu
    subst hv
    subst hwu
    refine ⟨hid, ?_, ?_, ?_, ?_⟩
    · show u.climatization.parent = u.id
      rw [hclim, hid]
    · intro c hc
      show c.parent = u.id
      rw [hcap c hc, hid]
    · intro a ha
      show a.parent = u.id
      rw [hact a ha, hid]
    · intro ch hch
      have h2 : some ch0 = some ch := hch
      cases h2
      show ch0.parent = u.id
      rw [hchp, hid]

/-- C4 witness: the concrete combustion-to-hybrid migration has every facet
re-parented to the new instance. -/
theorem claim4_parent_consistency_witness :
    (okOr Vehicle.dummy
        (AudiHybridVehicle.init false none none none (some demoCombustion) 20)).id = 20 ∧
    (okOr Vehicle.dummy
        (AudiHybridVehicle.init false none none none
          (some demoCombustion) 20)).climatization.parent =
      (okOr Vehicle.dummy
        (AudiHybridVehicle.init false none none none (some demoCombustion) 20)).id :=
  ⟨(claim4_parent_consistency false none none none (some demoCombustion) 20 _
      (Or.inr (Or.inr (Or.inr rfl)))).1,
   (claim4_parent_consistency false none none none (some demoCombustion) 20 _
      (Or.inr (Or.inr (Or.inr rfl)))).2.1⟩

/-- C5: in migration mode, the constructed result is fully determined by the
origin (and the brand stamp): the `vin`, `garage` and `managing_connector`
arguments are ignored — any two argument triples give identical results —
and identity and linkage are inherited from the origin. -/
theorem claim5_migration_ignores_args (si : Bool) (vin1 vin2 : Option String)
    (g1 g2 mc1 mc2 : Option Nat) (o : Vehicle) (selfId : Nat) :
    AudiVehicle.init si vin1 g1 mc1 (some o) selfId =
      AudiVehicle.init si vin2 g2 mc2 (some o) selfId ∧
    AudiElectricVehicle.init si vin1 g1 mc1 (some o) selfId =
      AudiElectricVehicle.init si vin2 g2 mc2 (some o) selfId ∧
    AudiCombustionVehicle.init si vin1 g1 mc1 (some o) selfId =
      AudiCombustionVehicle.init si vin2 g2 mc2 (some o) selfId ∧
    AudiHybridVehicle.init si vin1 g1 mc1 (some o) selfId =
      AudiHybridVehicle.init si vin2 g2 mc2 (some o) selfId ∧
    (∀ v, (AudiVehicle.init si vin1 g1 mc1 (some o) selfId = .ok v ∨
           AudiElectricVehicle.init si vin1 g1 mc1 (some o) selfId = .ok v ∨
           AudiCombustionVehicle.init si vin1 g1 mc1 (some o) selfId = .ok v ∨
           AudiHybridVehicle.init si vin1 g1 mc1 (some o) selfId = .ok v) →
      v.vin = o.vin ∧ v.garage = o.garage ∧ v.managingConnector = o.managingConnector) := by
  refine ⟨rfl, rfl, rfl, rfl, ?_⟩
  intro v h
  rcases h with h | h | h | h
  · obtain ⟨w, hw, hv⟩ := av_init_ok_elim h
    obtain ⟨-, -, -, -, -, -, -, -, -, -, hmig⟩ := av_build_ok_fields hw
    obtain ⟨h1, h2, h3, -, -⟩ := hmig o rfl
    subst hv
    exact ⟨h1, h2, h3⟩
  · obtain ⟨w, hw, hv⟩ := aev_init_ok_elim h
    obtain ⟨u, ch0, hu, hwu, -, -, -, -⟩ := aev_build_ok_fields hw
    obtain ⟨-, -, -, -, -, -, -, -, -, -, hmig⟩ := av_build_ok_fields hu
    obtain ⟨h1, h2, h3, -, -⟩ := hmig o rfl
    subst hv
    subst hwu
    exact ⟨h1, h2, h3⟩
  · obtain ⟨w, hw, hv⟩ := acv_init_ok_elim h
    obtain ⟨-, -, -, -, -, -, -, -, -, -, hmig⟩ := av_build_ok_fields hw
    obtain ⟨h1, h2, h3, -, -⟩ := hmig o rfl
    subst hv
    exact ⟨h1, h2, h3⟩
  · obtain ⟨w, hw, hv⟩ := ahv_init_ok_elim h
    obtain ⟨u, ch0, hu, hwu, -, -, -, -⟩ := aev_build_ok_fields hw
    obtain ⟨-, -, -, -, -, -, -, -, -, -, hmig⟩ := av_build_ok_fields hu
    obtain ⟨h1, h2, h3, -, -⟩ := hmig o rfl
    subst hv
    subst hwu
    exact ⟨h1, h2, h3⟩

/-- C5 witness: at a concrete origin, two migration calls with different
vin/garage/connector arguments coincide, and the result inherits the
origin's identity and linkage. -/
theorem claim5_migration_ignores_args_witness :
    AudiVehicle.init false (some "OTHER") (some 9) (some 8) (some demoCombustion) 30 =
      AudiVehicle.init false none none none (some demoCombustion) 30 ∧
    (okOr Vehicle.dummy
        (AudiVehicle.init false (some "OTHER") (some 9) (some 8)
          (some demoCombustion) 30)).vin = demoCombustion.vin :=
  ⟨(claim5_migration_ignores_args false (some "OTHER") none (some 9) none (some 8) none
      demoCombustion 30).1,
   ((claim5_migration_ignores_args false (some "OTHER") none (some 9) none (some 8) none
      demoCombustion 30).2.2.2.2 _ (Or.inl rfl)).1⟩

/-- C6: every construction by migration, for every Audi variant, preserves
the origin's VIN — migration never changes the vehicle identity. -/
theorem claim6_vin_preserved (si : Bool) (vin : Option String) (g mc : Option Nat)
    (o : Vehicle) (selfId : Nat) (v : Vehicle)
    (h : AudiVehicle.init si vin g mc (some o) selfId = .ok v ∨
         AudiElectricVehicle.init si vin g mc (some o) selfId = .ok v ∨
         AudiCombustionVehicle.init si vin g mc (some o) selfId = .ok v ∨
         AudiHybridVehicle.init si vin g mc (some o) selfId = .ok v) :
    v.vin = o.vin := by
  rcases h with h | h | h | h
  · obtain ⟨w, hw, hv⟩ := av_init_ok_elim h
    obtain ⟨-, -, -, -, -, -, -, -, -, -, hmig⟩ := av_build_ok_fields hw
    subst hv
    exact (hmig o rfl).1
  · obtain ⟨w, hw, hv⟩ := aev_init_ok_elim h
    obtain ⟨u, ch0, hu, hwu, -, -, -, -⟩ := aev_build_ok_fields hw
    obtain ⟨-, -, -, -, -, -, -, -, -, -, hmig⟩ := av_build_ok_fields hu
    subst hv
    subst hwu
    exact (hmig o rfl).1
  · obtain ⟨w, hw, hv⟩ := acv_init_ok_elim h
    obtain ⟨-, -, -, -, -, -, -, -, -, -, hmig⟩ := av_build_ok_fields hw
    subst hv
    exact (hmig o rfl).1
  · obtain ⟨w, hw, hv⟩ := ahv_init_ok_elim h
    obtain ⟨u, ch0, hu, hwu, -, -, -, -⟩ := aev_build_ok_fields hw
    obtain ⟨-, -, -, -, -, -, -, -, -, -, hmig⟩ := av_build_ok_fields hu
    subst hv
    subst hwu
    exact (hmig o rfl).1

/-- C6 witness: the concrete combustion-to-hybrid migration keeps the VIN. -/
theorem claim6_vin_preserved_witness :
    (okOr Vehicle.dummy
        (AudiHybridVehicle.init false none none none (some demoCombustion) 20)).vin =
      demoCombustion.vin :=
  claim6_vin_preserved false none none none demoCombustion 20 _
    (Or.inr (Or.inr (Or.inr rfl)))

/-- C7: the constructed instance's facet set exactly equals its variant's
declared capability set: every variant carries climatization (a total field
of the model), the activity flag and the capability set; electric and hybrid
variants additionally carry charging; plain and combustion variants carry no
charging facet. -/
theorem claim7_capability_completeness (si : Bool) (vin : Option String) (g mc : Option Nat)
    (origin : Option Vehicle) (selfId : Nat) (v : Vehicle) :
    ((AudiVehicle.init si vin g mc origin selfId = .ok v ∨
      AudiCombustionVehicle.init si vin g mc origin selfId = .ok v) →
      v.capabilities.isSome = true ∧ v.isActive.isSome = true ∧ v.charging = none) ∧
    ((AudiElectricVehicle.init si vin g mc origin selfId = .ok v ∨
      AudiHybridVehicle.init si vin g mc origin selfId = .ok v) →
      v.capabilities.isSome = true ∧ v.isActive.isSome = true ∧ v.charging.isSome = true) := by
  constructor
  · intro h
    rcases h with h | h
    · obtain ⟨w, hw, hv⟩ := av_init_ok_elim h
      obtain ⟨-, -, -, hcs, has, -, -, hchg, -, -, -⟩ := av_build_ok_fields hw
      subst hv
      exact ⟨hcs, has, hchg⟩
    · obtain ⟨w, hw, hv⟩ := acv_init_ok_elim h
      obtain ⟨-, -, -, hcs, has, -, -, hchg, -, -, -⟩ := av_build_ok_fields hw
      subst hv
      exact ⟨hcs, has, hchg⟩
  · intro h
    rcases h with h | h
    · obtain ⟨w, hw, hv⟩ := aev_init_ok_elim h
      obtain ⟨u, ch0, hu, hwu, -, -, -, -⟩ := aev_build_ok_fields hw
      obtain ⟨-, -, -, hcs, has, -, -, -, -, -, -⟩ := av_build_ok_fields hu
      subst hv
      subst hwu
      exact ⟨hcs, has, rfl⟩
    · obtain ⟨w, hw, hv⟩ := ahv_init_ok_elim h
      obtain ⟨u, ch0, hu, hwu, -, -, -, -⟩ := aev_build_ok_fields hw
      obtain ⟨-, -, -, hcs, has, -, -, -, -, -, -⟩ := av_build_ok_fields hu
      subst hv
      subst hwu
      exact ⟨hcs, has, rfl⟩

/-- C7 witness: concrete fresh constructions of a combustion and a hybrid
variant have exactly the declared facet sets. -/
theorem claim7_capability_completeness_witness :
    (okOr Vehicle.dummy
        (AudiCombustionVehicle.init false (some "WAUZZZ1") (some 1) (some 2) none 10)).charging
      = none ∧
    (okOr Vehicle.dummy
        (AudiHybridVehicle.init false (some "WAUZZZ4") none none none 16)).charging.isSome
      = true :=
  ⟨((claim7_capability_completeness false (some "WAUZZZ1") (some 1) (some 2) none 10 _).1
      (Or.inr rfl)).2.2,
   ((claim7_capability_completeness false (some "WAUZZZ4") none none none 16 _).2
      (Or.inr rfl)).2.2⟩

/-- C10: after construction of an electric-capable variant completes — fresh
or by migration, whatever the origin's kind — the charging facet is present
and is an `AudiCharging` instance (the base-class-constructed facet is
always rewrapped through the `AudiCharging` constructor). -/
theorem claim10_charging_rewrapped (si : Bool) (vin : Option String) (g mc : Option Nat)
    (origin : Option Vehicle) (selfId : Nat) (v : Vehicle)
    (h : AudiElectricVehicle.init si vin g mc origin selfId = .ok v ∨
         AudiHybridVehicle.init si vin g mc origin selfId = .ok v) :
    v.charging.map Charging.isAudi = some true := by
  rcases h with h | h
  · obtain ⟨w, hw, hv⟩ := aev_init_ok_elim h
    obtain ⟨u, ch0, hu, hwu, -, hA, -, -, -⟩ := aev_build_ok_fields hw
    subst hv
    subst hwu
    show some ch0.isAudi = some true
    rw [hA]
  · obtain ⟨w, hw, hv⟩ := ahv_init_ok_elim h
    obtain ⟨u, ch0, hu, hwu, -, hA, -, -, -⟩ := aev_build_ok_fields hw
    subst hv
    subst hwu
    show some ch0.isAudi = some true
    rw [hA]

/-- C10 witness: a hybrid migrated from a non-electric origin still ends up
with an `AudiCharging` facet. -/
theorem claim10_charging_rewrapped_witness :
    (okOr Vehicle.dummy
        (AudiHybridVehicle.init false none none none
          (some demoCombustion) 20)).charging.map Charging.isAudi = some true :=
  claim10_charging_rewrapped false none none none (some demoCombustion) 20 _
    (Or.inr rfl)

/-- C3: when an electric-capable variant is constructed by migration, the
charging facet is migrated from `origin.charging` (state and subscribers
adopted, re-parented) if the origin is electric-capable; otherwise it is
constructed fresh with default state — and the missing facet raises no
error on a structurally Audi origin. -/
theorem claim3_charging_migration (si : Bool) (vin : Option String) (g mc : Option Nat)
    (o : Vehicle) (selfId : Nat) :
    (∀ v, (AudiElectricVehicle.init si vin g mc (some o) selfId = .ok v ∨
           AudiHybridVehicle.init si vin g mc (some o) selfId = .ok v) →
      (o.kind.electricCapable = true →
        ∃ c ch, o.charging = some c ∧ v.charging = some ch ∧
          ch.parent = v.id ∧ ch.state = c.state ∧ ch.subscribers = c.subscribers) ∧
      (o.kind.electricCapable = false →
        v.charging = some { parent := v.id, state := 0, subscribers := 0, isAudi := true })) ∧
    (Audiish si o → o.kind.electricCapable = false →
      (AudiElectricVehicle.init si vin g mc (some o) selfId).isOk = true ∧
      (AudiHybridVehicle.init si vin g mc (some o) selfId).isOk = true) := by
  constructor
  · intro v h
    have key : ∀ (w : Vehicle), AudiElectricVehicle.build si vin g mc (some o) selfId = .ok w →
        ∀ k : VKind,
        (o.kind.electricCapable = true →
          ∃ c ch, o.charging = some c ∧
            Vehicle.charging { w with kind := k } = some ch ∧
            ch.parent = Vehicle.id { w with kind := k } ∧
            ch.state = c.state ∧ ch.subscribers = c.subscribers) ∧
        (o.kind.electricCapable = false →
          Vehicle.charging { w with kind := k } =
            some { parent := Vehicle.id { w with kind := k }, state := 0, subscribers := 0,
                   isAudi := true }) := by
      intro w hw k
      obtain ⟨u, ch0, hu, hwu, hp, -, hel, hnel, -⟩ := aev_build_ok_fields hw
      have hid : u.id = selfId := (av_build_ok_fields hu).2.1
      subst hwu
      constructor
      · intro he
        obtain ⟨c, hoc, hst, hsub⟩ := hel o rfl he
        refine ⟨c, ch0, hoc, rfl, ?_, hst, hsub⟩
        show ch0.parent = u.id
        rw [hp, hid]
      · intro he
        have hfr := hnel o rfl he
        show some ch0 = some { parent := u.id, state := 0, subscribers := 0, isAudi := true }
        rw [hfr, hid]
    rcases h with h | h
    · obtain ⟨w, hw, hv⟩ := aev_init_ok_elim h
      subst hv
      exact key w hw VKind.electric
    · obtain ⟨w, hw, hv⟩ := ahv_init_ok_elim h
      subst hv
      exact key w hw VKind.hybrid
  · intro ho _
    constructor
    · unfold AudiElectricVehicle.init
      rw [exceptMap_isOk]
      exact aev_build_migrate_isOk si vin g mc o selfId ho
    · unfold AudiHybridVehicle.init
      rw [exceptMap_isOk]
      exact aev_build_migrate_isOk si none g none o selfId ho

/-- C3 witness: migrating a concrete combustion origin into an electric
variant yields a fresh default charging facet and raises no error, and
migrating a concrete electric origin adopts its charging state. -/
theorem claim3_charging_migration_witness :
    (okOr Vehicle.dummy
        (AudiElectricVehicle.init false none none none (some demoCombustion) 41)).charging =
      some (Charging.mk (okOr Vehicle.dummy
          (AudiElectricVehicle.init false none none none (some demoCombustion) 41)).id
        0 0 true) ∧
    (AudiElectricVehicle.init false none none none (some demoCombustion) 41).isOk = true ∧
    (okOr Vehicle.dummy
        (AudiHybridVehicle.init false none none none
          (some demoElectric) 42)).charging.map Charging.state = some 3 := by
  refine ⟨(((claim3_charging_migration false none none none demoCombustion 41).1 _
      (Or.inl rfl)).2 (by decide)),
   ((claim3_charging_migration false none none none demoCombustion 41).2
      (by decide) (by decide)).1, ?_⟩
  obtain ⟨c, ch, hoc, hch, -, hst, -⟩ :=
    (((claim3_charging_migration false none none none demoElectric 42).1
      (okOr Vehicle.dummy
        (AudiHybridVehicle.init false none none none (some demoElectric) 42))
      (Or.inr rfl)).1 (by decide))
  have hc : some c = some (Charging.mk 12 3 2 true) := hoc.symm.trans rfl
  cases hc
  rw [hch]
  simp [hst]


/-- `AudiVehicle.build` without image support equals the image-supporting
construction with only the image cache erased (provided a migration origin
actually carries its cache, as any same-process instance does). -/
theorem av_build_image_frame (vin : Option String) (g mc : Option Nat)
    (origin : Option Vehicle) (selfId : Nat)
    (ho : ∀ o, origin = some o → o.carImages.isSome = true) :
    AudiVehicle.build false vin g mc origin selfId =
      (AudiVehicle.build true vin g mc origin selfId).map Vehicle.dropImages := by
  rcases origin with _ | o
  · rcases vin with _ | s
    · rfl
    · by_cases hs : s = "" <;>
        simp [AudiVehicle.build, GenericVehicle.build, hs, Except.map, Vehicle.dropImages]
  · rcases hm : o.carImages with _ | m
    · have h2 := ho o rfl
      rw [hm] at h2
      cases h2
    · rcases hc : o.capabilities with _ | caps
      · simp [AudiVehicle.build, GenericVehicle.build, hc, Except.map]
      · rcases ha : o.isActive with _ | act
        · simp [AudiVehicle.build, GenericVehicle.build, hc, ha, Except.map]
        · simp [AudiVehicle.build, GenericVehicle.build, hc, ha, hm, Except.map,
            Vehicle.dropImages]

/-- The image-support frame property lifted through `ElectricVehicle.build`. -/
theorem ev_build_image_frame (vin : Option String) (g mc : Option Nat)
    (origin : Option Vehicle) (selfId : Nat)
    (ho : ∀ o, origin = some o → o.carImages.isSome = true) :
    ElectricVehicle.build false vin g mc origin selfId =
      (ElectricVehicle.build true vin g mc origin selfId).map Vehicle.dropImages := by
  simp only [ElectricVehicle.build]
  rw [av_build_image_frame vin g mc origin selfId ho]
  cases AudiVehicle.build true vin g mc origin selfId with
  | error e => rfl
  | ok w =>
      rcases origin with _ | o
      · rfl
      · rcases he : o.kind.electricCapable with _ | _
        · simp [he, Except.map, Vehicle.dropImages]
        · rcases hc : o.charging with _ | c
          · simp [he, hc, Except.map]
          · simp [he, hc, Except.map, Vehicle.dropImages]

/-- The image-support frame property lifted through
`AudiElectricVehicle.build`. -/
theorem aev_build_image_frame (vin : Option String) (g mc : Option Nat)
    (origin : Option Vehicle) (selfId : Nat)
    (ho : ∀ o, origin = some o → o.carImages.isSome = true) :
    AudiElectricVehicle.build false vin g mc origin selfId =
      (AudiElectricVehicle.build true vin g mc origin selfId).map Vehicle.dropImages := by
  rcases origin with _ | o
  · simp only [AudiElectricVehicle.build]
    rw [ev_build_image_frame vin g mc none selfId ho]
    cases ElectricVehicle.build true vin g mc none selfId with
    | error e => rfl
    | ok w => rfl
  · simp only [AudiElectricVehicle.build]
    rw [ev_build_image_frame none g none (some o) selfId ho]
    cases ElectricVehicle.build true none g none (some o) selfId with
    | error e => rfl
    | ok w =>
        rcases he : o.kind.electricCapable with _ | _
        · simp [he, Except.map, Vehicle.dropImages]
        · rcases hc : o.charging with _ | c
          · simp [he, hc, Except.map]
          · simp [he, hc, Except.map, Vehicle.dropImages]

/-- The image-support frame property at the `AudiVehicle` constructor. -/
theorem av_init_image_frame (vin : Option String) (g mc : Option Nat)
    (origin : Option Vehicle) (selfId : Nat)
    (ho : ∀ o, origin = some o → o.carImages.isSome = true) :
    AudiVehicle.init false vin g mc origin selfId =
      (AudiVehicle.init true vin g mc origin selfId).map Vehicle.dropImages := by
  unfold AudiVehicle.init
  rw [av_build_image_frame vin g mc origin selfId ho]
  cases AudiVehicle.build true vin g mc origin selfId with
  | error e => rfl
  | ok w => rfl

/-- The image-support frame property at the `AudiElectricVehicle`
constructor. -/
theorem aev_init_image_frame (vin : Option String) (g mc : Option Nat)
    (origin : Option Vehicle) (selfId : Nat)
    (ho : ∀ o, origin = some o → o.carImages.isSome = true) :
    AudiElectricVehicle.init false vin g mc origin selfId =
      (AudiElectricVehicle.init true vin g mc origin selfId).map Vehicle.dropImages := by
  unfold AudiElectricVehicle.init
  rw [aev_build_image_frame vin g mc origin selfId ho]
  cases AudiElectricVehicle.build true vin g mc origin selfId with
  | error e => rfl
  | ok w => rfl

/-- The image-support frame property at the `AudiCombustionVehicle`
constructor. -/
theorem acv_init_image_frame (vin : Option String) (g mc : Option Nat)
    (origin : Option Vehicle) (selfId : Nat)
    (ho : ∀ o, origin = some o → o.carImages.isSome = true) :
    AudiCombustionVehicle.init false vin g mc origin selfId =
      (AudiCombustionVehicle.init true vin g mc origin selfId).map Vehicle.dropImages := by
  rcases origin with _ | o
  · simp only [AudiCombustionVehicle.init]
    rw [av_build_image_frame vin g mc none selfId ho]
    cases AudiVehicle.build true vin g mc none selfId with
    | error e => rfl
    | ok w => rfl
  · simp only [AudiCombustionVehicle.init]
    rw [av_build_image_frame none g none (some o) selfId ho]
    cases AudiVehicle.build true none g none (some o) selfId with
    | error e => rfl
    | ok w => rfl

/-- The image-support frame property at the `AudiHybridVehicle`
constructor. -/
theorem ahv_init_image_frame (vin : Option String) (g mc : Option Nat)
    (origin : Option Vehicle) (selfId : Nat)
    (ho : ∀ o, origin = some o → o.carImages.isSome = true) :
    AudiHybridVehicle.init false vin g mc origin selfId =
      (AudiHybridVehicle.init true vin g mc origin selfId).map Vehicle.dropImages := by
  rcases origin with _ | o
  · simp only [AudiHybridVehicle.init]
    rw [aev_build_image_frame vin g mc none selfId ho]
    cases AudiElectricVehicle.build true vin g mc none selfId with
    | error e => rfl
    | ok w => rfl
  · simp only [AudiHybridVehicle.init]
    rw [aev_build_image_frame none g none (some o) selfId ho]
    cases AudiElectricVehicle.build true none g none (some o) selfId with
    | error e => rfl
    | ok w => rfl

/-- C8: image support enters the model as the single boolean
`SUPPORT_IMAGES` parameter (probed once at module load in the source, lines
14-20): for every constructor and every argument list, the construction
without image support equals the construction with image support with only
the image-cache field erased — every other field of the result is
unchanged — and with support present the cache is always attached. -/
theorem claim8_image_support_frame (vin : Option String) (g mc : Option Nat)
    (origin : Option Vehicle) (selfId : Nat)
    (ho : ∀ o, origin = some o → o.carImages.isSome = true) :
    AudiVehicle.init false vin g mc origin selfId =
      (AudiVehicle.init true vin g mc origin selfId).map Vehicle.dropImages ∧
    AudiElectricVehicle.init false vin g mc origin selfId =
      (AudiElectricVehicle.init true vin g mc origin selfId).map Vehicle.dropImages ∧
    AudiCombustionVehicle.init false vin g mc origin selfId =
      (AudiCombustionVehicle.init true vin g mc origin selfId).map Vehicle.dropImages ∧
    AudiHybridVehicle.init false vin g mc origin selfId =
      (AudiHybridVehicle.init true vin g mc origin selfId).map Vehicle.dropImages ∧
    (∀ v, (AudiVehicle.init true vin g mc origin selfId = .ok v ∨
           AudiElectricVehicle.init true vin g mc origin selfId = .ok v ∨
           AudiCombustionVehicle.init true vin g mc origin selfId = .ok v ∨
           AudiHybridVehicle.init true vin g mc origin selfId = .ok v) →
      v.carImages.isSome = true) := by
  refine ⟨av_init_image_frame vin g mc origin selfId ho,
    aev_init_image_frame vin g mc origin selfId ho,
    acv_init_image_frame vin g mc origin selfId ho,
    ahv_init_image_frame vin g mc origin selfId ho, ?_⟩
  intro v h
  rcases h with h | h | h | h
  · obtain ⟨w, hw, hv⟩ := av_init_ok_elim h
    subst hv
    exact (av_build_ok_fields hw).2.2.2.2.2.2.2.2.1
  · obtain ⟨w, hw, hv⟩ := aev_init_ok_elim h
    obtain ⟨u, ch0, hu, hwu, -, -, -, -⟩ := aev_build_ok_fields hw
    subst hv
    subst hwu
    exact (av_build_ok_fields hu).2.2.2.2.2.2.2.2.1
  · obtain ⟨w, hw, hv⟩ := acv_init_ok_elim h
    subst hv
    exact (av_build_ok_fields hw).2.2.2.2.2.2.2.2.1
  · obtain ⟨w, hw, hv⟩ := ahv_init_ok_elim h
    obtain ⟨u, ch0, hu, hwu, -, -, -, -⟩ := aev_build_ok_fields hw
    subst hv
    subst hwu
    exact (av_build_ok_fields hu).2.2.2.2.2.2.2.2.1

/-- C8 witness: at a concrete migration origin carrying an image cache, the
no-image construction is exactly the image construction with the cache
erased. -/
theorem claim8_image_support_frame_witness :
    AudiVehicle.init false (some "WAUZZZ5") none none (some demoCombustionImg) 40 =
      (AudiVehicle.init true (some "WAUZZZ5") none none
        (some demoCombustionImg) 40).map Vehicle.dropImages :=
  (claim8_image_support_frame (some "WAUZZZ5") none none (some demoCombustionImg) 40
    (fun o ho => by cases ho; decide)).1

/-- C9: the spec's migration scenario — a combustion Audi with VIN
`"WAUZZZ1"`, no charging facet and target temperature 21 migrated into a
hybrid variant yields the same VIN, a freshly constructed charging facet
(default state, zero subscribers, owned by the new instance) and a migrated
climatization facet carrying over the prior target temperature. -/
theorem claim9_combustion_to_hybrid_scenario :
    demoCombustion.vin = some "WAUZZZ1" ∧
    demoCombustion.charging = none ∧
    demoCombustion.climatization.targetTemp = some 21 ∧
    (AudiHybridVehicle.init false none none none (some demoCombustion) 20).isOk = true ∧
    (okOr Vehicle.dummy
        (AudiHybridVehicle.init false none none none (some demoCombustion) 20)).vin =
      some "WAUZZZ1" ∧
    (okOr Vehicle.dummy
        (AudiHybridVehicle.init false none none none (some demoCombustion) 20)).charging =
      some (Charging.mk 20 0 0 true) ∧
    (okOr Vehicle.dummy
        (AudiHybridVehicle.init false none none none
          (some demoCombustion) 20)).climatization.targetTemp = some 21 ∧
    (okOr Vehicle.dummy
        (AudiHybridVehicle.init false none none none
          (some demoCombustion) 20)).climatization.parent = 20 := by
  decide
